import Mathlib

set_option maxRecDepth 40000

/-!
Verification development for the EHS-Sentinel protocol bridge
(github.com/echoDaveD/EHS-Sentinel).

The Python sources are shallowly embedded: byte strings become `List Nat`
(each element a byte value 0..255), Python `int` becomes `Int`/`Nat` with
explicit masking where the code masks, Python floats arising from `/` and
`round` are idealised as rationals (`ℚ`), and code that can raise becomes
`Except`-valued.  Object fields that Python initialises to `None` and that
other code may read before assignment are modelled with `Option`;
dereferencing such an unset field is the Python `TypeError`/`AttributeError`,
collapsed here into the error kinds of `PyErr`.

Each definition mirrors one function of the source tree (file and line
references in the doc comments).  Two small methods of `NASAMessage` that
the producer calls are missing from the snapshot of the source and are
modelled from the spec; their doc comments start with `Modelled from the
spec:`.
-/

namespace EHS

/-- Error kinds for Python runtime exceptions that the embedded code can
raise: `typeError` stands for operations on `None` (for example
`None >> 8`), `attributeError` for a missing attribute/method,
`keyError` for a failing dict lookup, `overflowError` for
`int.to_bytes` out of range, `valueError` for failing `int()`/`float()`
conversions, and `messageWarning` for `MessageWarningException`. -/
inductive PyErr where
  | typeError
  | attributeError
  | keyError
  | overflowError
  | valueError
  | messageWarning
  deriving DecidableEq, Repr

/-- Error kinds raised by `NASAPacket.parse` (NASAPacket.py):
`tooShort` is the `ValueError` for packets under 14 bytes,
`unknownSourceClass`/`unknownDestClass` are the `SkipInvalidPacketException`s
for address-class bytes outside the enumeration, `badPacketType`/`badDataType`
are the `ValueError`s raised by `PacketType(...)`/`DataType(...)` on values
outside their enumerations, `structureCapacity` is the
`SkipInvalidPacketException` for a type-3 message in a packet of capacity
other than 1, `oversizePayload` the `ValueError` for payloads over 255
bytes, and `crcMismatch` the `SkipInvalidPacketException` for a failing
checksum comparison. -/
inductive ParseErr where
  | tooShort
  | unknownSourceClass (b : Nat)
  | unknownDestClass (b : Nat)
  | badPacketType (v : Nat)
  | badDataType (v : Nat)
  | structureCapacity
  | oversizePayload
  | crcMismatch
  deriving DecidableEq, Repr

/-- One round of the CRC-16/CCITT (XMODEM) bit loop: shift left, xor with
the polynomial 0x1021 when the top bit was set, keep 16 bits. -/
def crcRound (c : Nat) : Nat :=
  if c &&& 0x8000 ≠ 0 then ((c <<< 1) ^^^ 0x1021) &&& 0xFFFF else (c <<< 1) &&& 0xFFFF

/-- Fold one byte into the CRC state (8 rounds of `crcRound` after xoring
the byte into the high half). -/
def crcByte (c b : Nat) : Nat :=
  crcRound (crcRound (crcRound (crcRound (crcRound (crcRound (crcRound (crcRound
    ((c ^^^ (b <<< 8)) &&& 0xFFFF))))))))

/-- Embedding of Python's `binascii.crc_hqx(data, value)`: CRC-16/CCITT with
polynomial 0x1021 over the byte list, starting from `value`. -/
def crc_hqx (data : List Nat) (value : Nat) : Nat :=
  data.foldl crcByte value

/-- Python slice `l[a:-b]` on a byte string: drop `a` from the front and `b`
from the back (empty when they overlap). -/
def pySliceDrop (l : List Nat) (a b : Nat) : List Nat :=
  (l.take (l.length - b)).drop a

/-- Python negative indexing `l[-k]` for `1 ≤ k ≤ len l`: the element at
position `len l - k` (0 when out of range, unreachable in our uses). -/
def pyGetBack (l : List Nat) (k : Nat) : Nat :=
  l.getD (l.length - k) 0

/-- Python `int.from_bytes(l, byteorder='big', signed=False)`. -/
def intFromBytesUnsigned (l : List Nat) : Nat :=
  l.foldl (fun a b => a * 256 + b) 0

/-- Python `int.from_bytes(l, byteorder='big', signed=True)`: two's
complement of the big-endian value. -/
def intFromBytesSigned (l : List Nat) : Int :=
  let u := intFromBytesUnsigned l
  if 2 ^ (8 * l.length - 1) ≤ u ∧ l.length ≠ 0 then (u : Int) - 2 ^ (8 * l.length) else (u : Int)

/-- Python `(i >> n)` on a (possibly negative) int: arithmetic shift, i.e.
floor division by `2 ^ n`. -/
def intShr (i : Int) (n : Nat) : Int :=
  Int.fdiv i (2 ^ n)

/-- Python `i & 0xFF` on a (possibly negative) int: the low byte of the two's
complement representation, i.e. `i mod 256`. -/
def intLowByte (i : Int) : Nat :=
  (i % 256).toNat

/-- Python `i.to_bytes(n, byteorder='big', signed=True)`: the `n`-byte big
endian two's complement encoding, raising `OverflowError` when `i` is out of
range. -/
def intToBytesSigned (n : Nat) (i : Int) : Except PyErr (List Nat) :=
  if -(2 ^ (8 * n - 1)) ≤ i ∧ i < 2 ^ (8 * n - 1) then
    .ok ((List.range n).reverse.map (fun k => intLowByte (intShr i (8 * k))))
  else
    .error .overflowError

/-- The value set of `AddressClassEnum` (NASAPacket.py lines 39-65).
`AddressClassEnum(b)` succeeds exactly when `b` is in this list; the member
is determined by its value (0xB3 names both `BroadcastCS` and its alias),
so the embedding keeps the raw byte. -/
def addressClassValues : List Nat :=
  [0x10, 0x11, 0x20, 0x30, 0x35, 0x38, 0x40, 0x50, 0x58, 0x59, 0x5A, 0x5B,
   0x60, 0x62, 0x65, 0x6A, 0x80, 0xB0, 0xB1, 0xB2, 0xB3, 0xB4, 0xB7, 0xB8,
   0xBF, 0xFF]

/-- Membership test backing `AddressClassEnum(b)`. -/
def isAddressClass (b : Nat) : Bool :=
  addressClassValues.contains b

/-- Embedding of the `NASAMessage` object (NASAMessage.py): the 16-bit
message word, the message type, and the payload bytes.  The constructor's
`bytes([int(hex(x), 16) for x in payload])` is the identity on byte values
and is dropped. -/
structure NASAMessage where
  packet_message : Nat
  packet_message_type : Nat
  packet_payload : List Nat
  deriving DecidableEq, Repr

/-- The `NASAMessage()` default object: message 0x000, type 0, payload
`[0]` (NASAMessage.py line 20). -/
def NASAMessage.default : NASAMessage :=
  { packet_message := 0, packet_message_type := 0, packet_payload := [0] }

/-- Embedding of `NASAMessage.to_raw` (NASAMessage.py lines 61-90): two
header bytes from `packet_message` followed by the payload re-encoded from
its big-endian signed integer value into 1, 2 or 4 bytes by message type.
For any other type the Python function falls off the end and returns
`None`, which the caller then uses as a byte string (`TypeError`). -/
def NASAMessage.to_raw (m : NASAMessage) : Except PyErr (List Nat) :=
  let msg_rest_0 := (m.packet_message >>> 8) &&& 0xFF
  let msg_rest_1 := m.packet_message &&& 0xFF
  let msgpayload := intFromBytesSigned m.packet_payload
  if m.packet_message_type = 0 then
    .ok [msg_rest_0, msg_rest_1, intLowByte msgpayload]
  else if m.packet_message_type = 1 then
    .ok [msg_rest_0, msg_rest_1, intLowByte (intShr msgpayload 8), intLowByte msgpayload]
  else if m.packet_message_type = 2 then
    .ok [msg_rest_0, msg_rest_1,
         intLowByte (intShr msgpayload 24), intLowByte (intShr msgpayload 16),
         intLowByte (intShr msgpayload 8), intLowByte msgpayload]
  else
    .error .typeError

/-- Modelled from the spec: `NASAMessage.to_bytes`, called by
`NASAPacket.to_raw` (NASAPacket.py line 386), is missing from the snapshot
of NASAMessage.py (only its caller is present).  Per spec section 4.1 each
contained message contributes 2 header bytes plus a 1/2/4-byte payload by
type, which is exactly `NASAMessage.to_raw`; serialization of a type-3
message is not required. -/
def NASAMessage.to_bytes (m : NASAMessage) : Except PyErr (List Nat) :=
  m.to_raw

/-- Modelled from the spec: `NASAMessage.set_packet_payload_raw`, called by
`MessageProducer._build_message` (MessageProducer.py line 110), is missing
from the snapshot of NASAMessage.py.  Per the producer contract it stores
the already-encoded bytes as the message payload unchanged. -/
def NASAMessage.set_packet_payload_raw (m : NASAMessage) (raw : List Nat) : NASAMessage :=
  { m with packet_payload := raw }

/-- Embedding of the `NASAPacket` object (NASAPacket.py lines 162-181).
Every field starts as Python `None`, hence the `Option`s; `parse` fills all
of them, the producer fills only some. -/
structure NASAPacket where
  packet_start : Option Nat := none
  packet_size : Option Nat := none
  packet_source_address_class : Option Nat := none
  packet_source_channel : Option Nat := none
  packet_source_address : Option Nat := none
  packet_dest_address_class : Option Nat := none
  packet_dest_channel : Option Nat := none
  packet_dest_address : Option Nat := none
  packet_information : Option Bool := none
  packet_version : Option Nat := none
  packet_retry_count : Option Nat := none
  packet_type : Option Nat := none
  packet_data_type : Option Nat := none
  packet_number : Option Nat := none
  packet_capacity : Option Nat := none
  packet_messages : Option (List NASAMessage) := none
  packet_crc16 : Option Nat := none
  packet_end : Option Nat := none
  deriving DecidableEq, Repr

/-- The 16-bit message word at the head of a message rest:
`(msg_rest[0] << 8) | msg_rest[1]` (NASAPacket.py line 263). -/
def head_message_number (msg_rest : List Nat) : Nat :=
  ((msg_rest.getD 0 0) <<< 8) ||| msg_rest.getD 1 0

/-- The message type of the head message: bits 9-10 of the message word,
`(message_number & 1536) >> 9` (NASAPacket.py line 264). -/
def head_message_type (msg_rest : List Nat) : Nat :=
  (head_message_number msg_rest &&& 1536) >>> 9

/-- The payload size the extractor selects for the head message: 1, 2 or 4
bytes for types 0-2, the whole rest for type 3 (NASAPacket.py lines
266-273). -/
def head_payload_size (msg_rest : List Nat) : Nat :=
  if head_message_type msg_rest = 0 then 1
  else if head_message_type msg_rest = 1 then 2
  else if head_message_type msg_rest = 2 then 4
  else msg_rest.length

/-- The `NASAMessage` the extractor builds from the head of the rest
(NASAPacket.py lines 279-283). -/
def head_message (msg_rest : List Nat) : NASAMessage :=
  { packet_message := head_message_number msg_rest,
    packet_message_type := head_message_type msg_rest,
    packet_payload := (msg_rest.drop 2).take (head_payload_size msg_rest) }

/-- The recursion of `NASAPacket._extract_messages` (NASAPacket.py lines
245-284), made structural on a fuel bound so that concrete runs reduce
definitionally: recursion stops once the depth counter exceeds the
capacity or at most two bytes remain; otherwise the 16-bit message number
is read, the type is bits 9-10, the payload length is 1/2/4 by type or the
whole rest for type 3 (which demands capacity 1), payloads over 255 bytes
raise, and the extracted message is appended before recursing past the
consumed bytes.  Each step consumes at least 3 bytes, so any fuel above
the length of the rest is never exhausted (`extract_messages_go_fuel`);
the fuel-0 branch is unreachable from `extract_messages`. -/
def extract_messages_go : Nat → Nat → Nat → List Nat → List NASAMessage →
    Except ParseErr (List NASAMessage)
  | 0, _, _, _, return_list => .ok return_list
  | fuel + 1, depth, capacity, msg_rest, return_list =>
    if capacity < depth ∨ msg_rest.length ≤ 2 then
      .ok return_list
    else if head_message_type msg_rest = 3 ∧ capacity ≠ 1 then
      .error .structureCapacity
    else if 255 < ((msg_rest.drop 2).take (head_payload_size msg_rest)).length then
      .error .oversizePayload
    else
      extract_messages_go fuel (depth + 1) capacity
        (msg_rest.drop (2 + head_payload_size msg_rest))
        (return_list ++ [head_message msg_rest])

/-- Embedding of `NASAPacket._extract_messages`: the recursion above with
enough fuel. -/
def extract_messages (depth capacity : Nat) (msg_rest : List Nat)
    (return_list : List NASAMessage) : Except ParseErr (List NASAMessage) :=
  extract_messages_go (msg_rest.length + 1) depth capacity msg_rest return_list

/-- The stored CRC of a frame: `(packet[-3] << 8) | packet[-2]`
(NASAPacket.py line 238). -/
def storedCrc (packet : List Nat) : Nat :=
  (pyGetBack packet 3 <<< 8) ||| pyGetBack packet 2

/-- Embedding of `NASAPacket.parse` (NASAPacket.py lines 183-243), with the
source's evaluation order kept: the length check, the CRC computation over
`packet[3:-3]`, the header fields (failing on unknown address classes and
out-of-range packet/data types), then message extraction from
`packet[13:-3]`, and only after extraction the comparison of the computed
CRC against the stored one. -/
def NASAPacket.parse (packet : List Nat) : Except ParseErr NASAPacket :=
  if packet.length < 14 then .error .tooShort
  else
    let crc_checkusm := crc_hqx (pySliceDrop packet 3 3) 0
    let b3 := packet.getD 3 0
    if isAddressClass b3 = false then .error (.unknownSourceClass b3)
    else
      let b6 := packet.getD 6 0
      if isAddressClass b6 = false then .error (.unknownDestClass b6)
      else
        let b9 := packet.getD 9 0
        let b10 := packet.getD 10 0
        let ptype := (b10 &&& 240) >>> 4
        if 4 < ptype then .error (.badPacketType ptype)
        else
          let dtype := b10 &&& 15
          if 7 < dtype then .error (.badDataType dtype)
          else
            let capacity := packet.getD 12 0
            match extract_messages 0 capacity (pySliceDrop packet 13 3) [] with
            | .error e => .error e
            | .ok msgs =>
              if crc_checkusm ≠ storedCrc packet then .error .crcMismatch
              else
                .ok { packet_start := some (packet.getD 0 0),
                      packet_size := some (((packet.getD 1 0) <<< 8) ||| packet.getD 2 0),
                      packet_source_address_class := some b3,
                      packet_source_channel := some (packet.getD 4 0),
                      packet_source_address := some (packet.getD 5 0),
                      packet_dest_address_class := some b6,
                      packet_dest_channel := some (packet.getD 7 0),
                      packet_dest_address := some (packet.getD 8 0),
                      packet_information := some (((b9 &&& 128) >>> 7) = 1),
                      packet_version := some ((b9 &&& 96) >>> 5),
                      packet_retry_count := some ((b9 &&& 24) >>> 3),
                      packet_type := some ptype,
                      packet_data_type := some dtype,
                      packet_number := some (packet.getD 11 0),
                      packet_capacity := some capacity,
                      packet_messages := some msgs,
                      packet_crc16 := some (storedCrc packet),
                      packet_end := some (pyGetBack packet 1) }

/-- Python bytearray slice assignment `l[i:j] = v` (for `i ≤ j`, both
clamped to the length): the elements at positions `i..j-1` are replaced by
all of `v`, growing or shrinking the array. -/
def sliceAssign (l : List Nat) (i j : Nat) (v : List Nat) : List Nat :=
  l.take i ++ v ++ l.drop j

/-- The message-writing loop of `NASAPacket.to_raw` (NASAPacket.py lines
384-387): for each message, `packet[index:index + 2] = msg.to_bytes()` and
`index += 2` — the index advances by two bytes regardless of how many bytes
the message produced. -/
def writeMsgs : List NASAMessage → Nat → List Nat → Except PyErr (List Nat)
  | [], _, acc => .ok acc
  | m :: ms, index, acc =>
    match m.to_bytes with
    | .error e => .error e
    | .ok b => writeMsgs ms (index + 2) (sliceAssign acc index (index + 2) b)

/-- Reading a field that Python still holds as `None` and then using it
(e.g. `None >> 8`, `len(None)`) raises; collapsed to `typeError`. -/
def pyGetField {α : Type} (o : Option α) : Except PyErr α :=
  match o with
  | some a => .ok a
  | none => .error .typeError

/-- Embedding of `NASAPacket.to_raw` (NASAPacket.py lines 363-393): a
buffer of `14 + 2 * len(messages)` zero bytes is allocated, the 13 header
bytes are written from the object's fields (`packet_size` and
`packet_crc16` are read back, not recomputed), each message is written via
`NASAMessage.to_bytes` with the index advancing by 2, and the last three
positions are overwritten with the stored CRC and the end byte 0x34.
Fields still `None` (every produced, non-parsed packet) raise. -/
def NASAPacket.to_raw (p : NASAPacket) : Except PyErr (List Nat) := do
  let messages ← pyGetField p.packet_messages
  let size ← pyGetField p.packet_size
  let srcClass ← pyGetField p.packet_source_address_class
  let srcChannel ← pyGetField p.packet_source_channel
  let srcAddr ← pyGetField p.packet_source_address
  let dstClass ← pyGetField p.packet_dest_address_class
  let dstChannel ← pyGetField p.packet_dest_channel
  let dstAddr ← pyGetField p.packet_dest_address
  let information ← pyGetField p.packet_information
  let version ← pyGetField p.packet_version
  let retry ← pyGetField p.packet_retry_count
  let ptype ← pyGetField p.packet_type
  let dtype ← pyGetField p.packet_data_type
  let pnumber ← pyGetField p.packet_number
  let capacity ← pyGetField p.packet_capacity
  let crc16 ← pyGetField p.packet_crc16
  let header : List Nat :=
    [0x32, (size >>> 8) &&& 0xFF, size &&& 0xFF,
     srcClass, srcChannel, srcAddr, dstClass, dstChannel, dstAddr,
     ((if information then 1 else 0) <<< 7) ||| (version <<< 5) ||| (retry <<< 3),
     (ptype <<< 4) ||| dtype, pnumber, capacity]
  let buffer := header ++ List.replicate (1 + 2 * messages.length) 0
  let withMsgs ← writeMsgs messages 13 buffer
  let n := withMsgs.length
  pure (((withMsgs.set (n - 3) ((crc16 >>> 8) &&& 0xFF)).set (n - 2)
          (crc16 &&& 0xFF)).set (n - 1) 0x34)

/-- Abstract syntax of the small arithmetic expressions the NASA repository
stores in its `arithmetic` / `reverse-arithmetic` fields (one variable,
`+ - * /`, numeric literals, unary minus); the Python code feeds the string
to `eval` with the raw value bound to the variable. -/
inductive Arith where
  | num (q : ℚ)
  | var
  | neg (a : Arith)
  | add (a b : Arith)
  | sub (a b : Arith)
  | mul (a b : Arith)
  | div (a b : Arith)
  deriving DecidableEq, Repr

/-- Evaluation of an arithmetic expression at the raw value `r`, with
Python's true division; `none` models the `eval` call raising (division by
zero — any other failure of the string-level `eval`, such as an unbound
name after the `value → packed_value` rewriting, is likewise a `none`). -/
def evalArith (a : Arith) (r : ℚ) : Option ℚ :=
  match a with
  | .num q => some q
  | .var => some r
  | .neg x => (evalArith x r).map (fun v => -v)
  | .add x y => do pure ((← evalArith x r) + (← evalArith y r))
  | .sub x y => do pure ((← evalArith x r) - (← evalArith y r))
  | .mul x y => do pure ((← evalArith x r) * (← evalArith y r))
  | .div x y => do
      let d ← evalArith y r
      if d = 0 then none else pure ((← evalArith x r) / d)

/-- Round-half-to-even on a rational, Python's rounding rule for `round`.
The floating-point representation error of CPython floats is idealised
away. -/
def roundHalfEven (q : ℚ) : Int :=
  let f := ⌊q⌋
  if q - f < 1 / 2 then f
  else if 1 / 2 < q - f then f + 1
  else if 2 ∣ f then f else f + 1

/-- Python `round(q, 3)` on an exact value: half-even rounding at the third
decimal.  On an int Python returns it unchanged, which agrees with this
definition. -/
def pyRound3 (q : ℚ) : ℚ :=
  (roundHalfEven (q * 1000) : ℚ) / 1000

/-- One entry of the NASA repository (`config.NASA_REPO[name]`): the
address, the semantic `type` string, the forward and reverse arithmetic
expressions (`none` for an empty/absent string), and the optional enum
mapping from raw integers to labels (an association list in the dict's
insertion order). -/
structure RepoEntry where
  address : Nat
  type : String
  arithmetic : Option Arith := none
  reverse_arithmetic : Option Arith := none
  enum : Option (List (Int × String)) := none
  deriving DecidableEq, Repr

/-- Python dict lookup `m[k]` on an association list: the first binding of
`k`, `none` for a `KeyError`. -/
def dictLookup (m : List (Int × String)) (k : Int) : Option String :=
  (m.find? (fun kv => kv.1 = k)).map (fun kv => kv.2)

/-- Values `determine_value` can return: a number (Python int/float,
idealised as `ℚ`) or an enum label string. -/
inductive MsgValue where
  | num (q : ℚ)
  | str (s : String)
  deriving DecidableEq, Repr

/-- Rendering of the post-arithmetic value inside the synthetic
"Unknown enum value" string; integer values print as Python ints, the
decimal rendering of a non-integer float is idealised as `num/den`. -/
def fmtValue (q : ℚ) : String :=
  if q.den = 1 then toString q.num else toString q.num ++ "/" ++ toString q.den

/-- Embedding of `MessageProcessor.determine_value` (MessageProcessor.py
lines 212-243): decode the payload as a big-endian signed int
`packed_value`; apply the forward arithmetic when present, falling back to
`packed_value` when `eval` fails; then, for an ENUM entry, replace the
value by the enum label looked up under the payload decoded *unsigned*
(raising `KeyError` when the key is absent), or by the synthetic
"Unknown enum value" string when the entry has no enum mapping at all;
non-ENUM values are rounded to 3 decimals. -/
def determine_value (entry : RepoEntry) (rawvalue : List Nat) : Except PyErr MsgValue :=
  let packed_value := intFromBytesSigned rawvalue
  let value : ℚ :=
    match entry.arithmetic with
    | some a =>
      match evalArith a (packed_value : ℚ) with
      | some v => v
      | none => (packed_value : ℚ)
    | none => (packed_value : ℚ)
  if entry.type = "ENUM" then
    match entry.enum with
    | some m =>
      match dictLookup m (intFromBytesUnsigned rawvalue : Int) with
      | some label => .ok (.str label)
      | none => .error .keyError
    | none => .ok (.str ("Unknown enum value: " ++ fmtValue value))
  else
    .ok (.num (pyRound3 value))

/-- Embedding of `MessageProcessor.extract_messages` (MessageProcessor.py
lines 159-210), the dict-producing twin of `NASAPacket._extract_messages`:
it stops on an empty rest (not at two bytes, so a 1-byte rest reads past
the end — `IndexError`, collapsed to `valueError`), truncates oversize
payloads to 255 bytes instead of raising, and raises
`MessageWarningException` for a type-3 message when the capacity is not
1.  Structural on a fuel bound like `extract_messages_go`; the fuel-0
branch is unreachable from `mp_extract_messages`. -/
def mp_extract_messages_go : Nat → Nat → Nat → List Nat → List NASAMessage →
    Except PyErr (List NASAMessage)
  | 0, _, _, _, return_list => .ok return_list
  | fuel + 1, depth, capacity, msg_rest, return_list =>
    if capacity < depth ∨ msg_rest.length = 0 then
      .ok return_list
    else if msg_rest.length = 1 then
      .error .valueError
    else if head_message_type msg_rest = 3 ∧ capacity ≠ 1 then
      .error .messageWarning
    else
      let payload0 := (msg_rest.drop 2).take (head_payload_size msg_rest)
      let payload := if 255 < payload0.length then payload0.take 255 else payload0
      mp_extract_messages_go fuel (depth + 1) capacity
        (msg_rest.drop (2 + head_payload_size msg_rest))
        (return_list ++ [{ packet_message := head_message_number msg_rest,
                           packet_message_type := head_message_type msg_rest,
                           packet_payload := payload }])

/-- Embedding of `MessageProcessor.extract_messages` with enough fuel. -/
def mp_extract_messages (depth capacity : Nat) (msg_rest : List Nat)
    (return_list : List NASAMessage) : Except PyErr (List NASAMessage) :=
  mp_extract_messages_go (msg_rest.length + 1) depth capacity msg_rest return_list

/-- Python `s.strip()`: drop whitespace from both ends (structural, over
the string's character list). -/
def pyStrip (s : String) : String :=
  String.mk (((s.data.dropWhile Char.isWhitespace).reverse.dropWhile
    Char.isWhitespace).reverse)

/-- Python `s.replace(c, '')` for a single character: remove every
occurrence. -/
def pyRemoveChar (s : String) (c : Char) : String :=
  String.mk (s.data.filter (fun x => x ≠ c))

/-- Python `s.split(",")` on the character list: the comma-separated
pieces (empty pieces kept, as in Python). -/
def splitComma : List Char → List (List Char)
  | [] => [[]]
  | c :: cs =>
    if c = ',' then [] :: splitComma cs
    else
      match splitComma cs with
      | [] => [[c]]
      | g :: gs => (c :: g) :: gs

/-- Python values the producer's `_decode_value` can return: an int, a
float (idealised as `ℚ`), or the unconverted string. -/
inductive PyVal where
  | int (i : Int)
  | rat (q : ℚ)
  | str (s : String)
  deriving DecidableEq, Repr

/-- Remove the first occurrence of the character `c`, as Python's
`s.replace(c, '', 1)`. -/
def removeFirst (c : Char) : List Char → List Char
  | [] => []
  | x :: xs => if x = c then xs else x :: removeFirst c xs

/-- Embedding of `MessageProducer.is_number` (MessageProducer.py lines
70-71): strip one '+', one '-' and one '.' anywhere in the string, then
Python `str.isdigit` (non-empty and all digits). -/
def is_number (s : String) : Bool :=
  let cs := removeFirst '.' (removeFirst '-' (removeFirst '+' s.toList))
  cs ≠ [] && cs.all Char.isDigit

/-- Parse a Python int literal: optional single sign followed by at least
one digit. -/
def parseIntStr (s : String) : Option Int :=
  let (sign, ds) :=
    match s.toList with
    | '+' :: rest => ((1 : Int), rest)
    | '-' :: rest => ((-1 : Int), rest)
    | rest => ((1 : Int), rest)
  if ds ≠ [] ∧ ds.all Char.isDigit then
    some (sign * (ds.foldl (fun a c => a * 10 + (c.toNat - '0'.toNat)) 0 : Nat))
  else none

/-- Parse a simple Python float literal `[sign] digits . digits` to an
exact rational. -/
def parseDecStr (s : String) : Option ℚ :=
  let (sign, ds) :=
    match s.toList with
    | '+' :: rest => ((1 : ℚ), rest)
    | '-' :: rest => ((-1 : ℚ), rest)
    | rest => ((1 : ℚ), rest)
  match ds.splitOn '.' with
  | [intPart, fracPart] =>
    if intPart.all Char.isDigit ∧ fracPart ≠ [] ∧ fracPart.all Char.isDigit then
      some (sign * ((intPart ++ fracPart).foldl (fun a c => a * 10 + (c.toNat - '0'.toNat)) 0 : Nat)
              / ((10 : ℚ) ^ fracPart.length))
    else none
  | _ => none

/-- Python `int(s)` / `float(s)` applied to a value `is_number` accepted:
an int when the string is an int literal, else a float; strings that pass
`is_number` but fail both conversions (such as "5+4") raise
`ValueError`. -/
def pyNumParse (s : String) : Except PyErr PyVal :=
  match parseIntStr s with
  | some i => .ok (.int i)
  | none =>
    match parseDecStr s with
    | some q => .ok (.rat q)
    | none => .error .valueError

/-- Python `int(x)` on a float: truncation toward zero. -/
def ratTrunc (q : ℚ) : Int :=
  q.num / (q.den : Int)

/-- Embedding of `MessageProducer._search_nasa_enumkey_for_value`
(MessageProducer.py lines 62-68): for an ENUM entry, the first enum key
whose label equals the value (reading `entry['enum']` of an ENUM entry
that has none is the dict `KeyError`); `none` otherwise. -/
def search_nasa_enumkey_for_value (entry : RepoEntry) (value : String) :
    Except PyErr (Option Int) :=
  if entry.type = "ENUM" then
    match entry.enum with
    | none => .error .keyError
    | some m => .ok (((m.find? (fun kv => kv.2 = value)).map (fun kv => kv.1)))
  else
    .ok none

/-- Embedding of `MessageProducer._decode_value` (MessageProducer.py lines
73-95): an enum label reverse-maps to its int key; otherwise a numeric
string is converted (int, else float) and, when the entry carries a
non-empty `reverse-arithmetic`, the expression is evaluated at the number
and truncated to int — with fallback to the unconverted number when `eval`
fails; a non-numeric, non-enum string is returned unchanged. -/
def decode_value (entry : RepoEntry) (value : String) : Except PyErr PyVal := do
  let enumval ← search_nasa_enumkey_for_value entry value
  match enumval with
  | some k => pure (.int k)
  | none =>
    if is_number value then do
      let v ← pyNumParse value
      let q : ℚ := match v with | .int i => (i : ℚ) | .rat q => q | .str _ => 0
      match entry.reverse_arithmetic with
      | some a =>
        match evalArith a q with
        | some w => pure (.int (ratTrunc w))
        | none => pure v
      | none => pure v
    else
      pure (.str value)

/-- Embedding of `MessageProducer._build_message` (MessageProducer.py lines
97-111): a default `NASAMessage` gets the point's address as its message
word — its `packet_message_type` stays at the constructor default 0 — and
the value is encoded with `to_bytes(1/2/4, signed=True)` chosen by that
(always 0) type; a float or string value has no `to_bytes`
(`AttributeError`).  The encoded bytes are stored via the spec-modelled
`set_packet_payload_raw`. -/
def build_message (entry : RepoEntry) (value : PyVal) : Except PyErr NASAMessage := do
  let tmpmsg := { NASAMessage.default with packet_message := entry.address }
  let value_raw ←
    match value with
    | .int i =>
      if tmpmsg.packet_message_type = 0 then intToBytesSigned 1 i
      else if tmpmsg.packet_message_type = 1 then intToBytesSigned 2 i
      else if tmpmsg.packet_message_type = 2 then intToBytesSigned 4 i
      else .error .messageWarning
    | _ => .error .attributeError
  pure (tmpmsg.set_packet_payload_raw value_raw)

/-- The chunking `[lst[i:i + 10] for i in range(0, len(lst), 10)]` of
`MessageProducer.read_request` (MessageProducer.py line 36, chunk size
`_CHUNKSIZE = 10`), structural on a fuel bound; every step consumes at
least one name, so any fuel above the length of the list is never
exhausted and the fuel-0 branch is unreachable from `readChunks`. -/
def readChunks_go : Nat → List String → List (List String)
  | 0, _ => []
  | _, [] => []
  | fuel + 1, l => l.take 10 :: readChunks_go fuel (l.drop 10)

/-- The chunk list of `MessageProducer.read_request`: the recursion above
with enough fuel. -/
def readChunks (l : List String) : List (List String) :=
  readChunks_go (l.length + 1) l

/-- Embedding of `MessageProducer._build_default_read_packet`
(MessageProducer.py lines 116-130): source class JIGTester (0x80), dest
class BroadcastSetLayer (0xB2), packet type Normal (1), data type Read (1),
packet number 166 — and neither `packet_size`, `packet_capacity`,
`packet_crc16` nor the messages are set here. -/
def build_default_read_packet : NASAPacket :=
  { packet_source_address_class := some 0x80,
    packet_source_channel := some 255,
    packet_source_address := some 0,
    packet_dest_address_class := some 0xB2,
    packet_dest_channel := some 0,
    packet_dest_address := some 32,
    packet_information := some true,
    packet_version := some 2,
    packet_retry_count := some 0,
    packet_type := some 1,
    packet_data_type := some 1,
    packet_number := some 166 }

/-- Embedding of `MessageProducer._build_default_request_packet`
(MessageProducer.py lines 132-146): source class JIGTester (0x80), dest
class Indoor (0x20), packet type Normal (1), data type Request (3),
packet number 166 — again without size, capacity or CRC. -/
def build_default_request_packet : NASAPacket :=
  { packet_source_address_class := some 0x80,
    packet_source_channel := some 0,
    packet_source_address := some 255,
    packet_dest_address_class := some 0x20,
    packet_dest_channel := some 0,
    packet_dest_address := some 0,
    packet_information := some true,
    packet_version := some 2,
    packet_retry_count := some 0,
    packet_type := some 1,
    packet_data_type := some 3,
    packet_number := some 166 }

/-- The comprehension `[self._build_message(x) for x in chunk]`
(MessageProducer.py line 40) with the default value `None → 0`. -/
def build_chunk_messages (repo : String → RepoEntry) :
    List String → Except PyErr (List NASAMessage)
  | [] => .ok []
  | x :: xs => do
    let m ← build_message (repo x) (.int 0)
    let rest ← build_chunk_messages repo xs
    pure (m :: rest)

/-- The packets `MessageProducer.read_request` (MessageProducer.py lines
35-46) builds and hands to `_write_packet_to_serial`, one per chunk of at
most 10 names: the default read packet with one message per name (payload
zero, via `_build_message(x)` with value `None → 0`). -/
def read_request_built (repo : String → RepoEntry) :
    List (List String) → Except PyErr (List NASAPacket)
  | [] => .ok []
  | chunk :: chunks => do
    let msgs ← build_chunk_messages repo chunk
    let rest ← read_request_built repo chunks
    pure ({ build_default_read_packet with packet_messages := some msgs } :: rest)

/-- Embedding of `MessageProducer.read_request` including the write side:
for each chunk the built packet is serialised by
`_write_packet_to_serial → NASAPacket.to_raw` before going on the wire, so
the raising behaviour of `to_raw` on producer packets (unset
`packet_size`) is part of this function; the result collects the raw
frames written to the serial port. -/
def read_request_go (repo : String → RepoEntry) :
    List (List String) → Except PyErr (List (List Nat))
  | [] => .ok []
  | chunk :: chunks => do
    let msgs ← build_chunk_messages repo chunk
    let p := { build_default_read_packet with packet_messages := some msgs }
    let raw ← p.to_raw
    let rest ← read_request_go repo chunks
    pure (raw :: rest)

def read_request (repo : String → RepoEntry) (names : List String) :
    Except PyErr (List (List Nat)) :=
  read_request_go repo (readChunks names)

/-- Embedding of `MessageProducer.write_request` (MessageProducer.py lines
48-60): build the default request packet carrying the single message for
the stripped point name and decoded value, call `nasa_packet.to_raw()`
(line 51 — the result is discarded but exceptions propagate), send it
(`to_raw` again), sleep 1 s, then `read_request([message])`.  The returned
trace records the packet handed to the writer, the sleep, and the names of
the follow-up read. -/
structure WriteTrace where
  packet : NASAPacket
  sleep_seconds : Nat
  followup_read : List String
  deriving DecidableEq, Repr

def write_request (repo : String → RepoEntry) (message value : String) :
    Except PyErr WriteTrace := do
  let dec ← decode_value (repo (pyStrip message)) (pyStrip value)
  let msg ← build_message (repo (pyStrip message)) dec
  let p := { build_default_request_packet with packet_messages := some [msg] }
  let _ ← p.to_raw
  let _ ← p.to_raw
  let _ ← read_request repo [message]
  pure { packet := p, sleep_seconds := 1, followup_read := [message] }

/-- One MQTT publish call: topic, payload, retain flag. -/
structure MqttPub where
  topic : String
  payload : String
  retain : Bool
  deriving DecidableEq, Repr

/-- The known-devices topic suffix (MQTTClient.py line 88). -/
def known_devices_topic : String := "known/devices"

/-- Embedding of the publishing effect of `MQTTClient.connect`
(MQTTClient.py lines 90-107), with the `--clean-known-devices` flag as a
boolean.  Modelled from the spec: the flag itself (`CLEAN_KNOWN_DEVICES`)
is parsed by an `EHSArguments` version missing from the snapshot (the
snapshot's EHSArguments.py lines 59-87 lack it; only its reader in
`connect` is present), per the spec's CLI contract.  When the flag is set,
connect publishes the one-space payload `" "` retained to
`topicPrefix.replace('/', '') + "/known/devices"`; otherwise it publishes
nothing. -/
def mqtt_connect (clean_known_devices : Bool) (topicPref : String) : List MqttPub :=
  if clean_known_devices then
    [{ topic := (pyRemoveChar topicPref '/') ++ "/" ++ known_devices_topic,
       payload := " ", retain := true }]
  else []

/-- Embedding of the known-devices ingestion in `MQTTClient.on_message`
(MQTTClient.py line 158): split the payload on commas, strip each piece,
drop empties — the device list a retained payload denotes. -/
def parseKnownDevices (payload : String) : List String :=
  (((splitComma payload.data).map (fun cs => pyStrip (String.mk cs)))).filter
    (fun x => x ≠ "")

/-! Concrete frames and packets used by the claim theorems.  `s1_frame` is
the bus capture from the spec's scenario S1 (also present verbatim in
src/test.py). -/

def s1_frame : List Nat :=
  [0x32, 0x00, 0x16, 0x10, 0x00, 0x00, 0xB0, 0x00, 0xFF, 0xC0, 0x14, 0x8B,
   0x02, 0x82, 0x37, 0x00, 0x20, 0x82, 0x38, 0x00, 0x23, 0xB8, 0xCE, 0x34]

/-- The packet `parse` extracts from `s1_frame`: every field set, both
messages of type 1. -/
def s1_packet : NASAPacket :=
  { packet_start := some 0x32,
    packet_size := some 0x16,
    packet_source_address_class := some 0x10,
    packet_source_channel := some 0,
    packet_source_address := some 0,
    packet_dest_address_class := some 0xB0,
    packet_dest_channel := some 0,
    packet_dest_address := some 0xFF,
    packet_information := some true,
    packet_version := some 2,
    packet_retry_count := some 0,
    packet_type := some 1,
    packet_data_type := some 4,
    packet_number := some 0x8B,
    packet_capacity := some 2,
    packet_messages := some
      [{ packet_message := 0x8237, packet_message_type := 1, packet_payload := [0x00, 0x20] },
       { packet_message := 0x8238, packet_message_type := 1, packet_payload := [0x00, 0x23] }],
    packet_crc16 := some 0xB8CE,
    packet_end := some 0x34 }

/-- What `NASAPacket.to_raw` actually produces from `s1_packet`: the index
advancing by only 2 per message makes the second message overwrite the
first one's payload, and the stale stored CRC then overwrites the second
message's tail. -/
def s1_reserialized : List Nat :=
  [0x32, 0x00, 0x16, 0x10, 0x00, 0x00, 0xB0, 0x00, 0xFF, 0xC0, 0x14, 0x8B,
   0x02, 0x82, 0x37, 0x82, 0x38, 0x00, 0x23, 0xB8, 0xCE, 0x34]

/-- Scenario S2: `s1_frame` with the stored CRC's high byte corrupted from
0xB8 to 0xB9. -/
def s2_frame : List Nat :=
  [0x32, 0x00, 0x16, 0x10, 0x00, 0x00, 0xB0, 0x00, 0xFF, 0xC0, 0x14, 0x8B,
   0x02, 0x82, 0x37, 0x00, 0x20, 0x82, 0x38, 0x00, 0x23, 0xB9, 0xCE, 0x34]

/-- A frame whose stored CRC (0x0000) is wrong *and* whose payload region
starts with a type-3 message while the capacity byte is 2. -/
def c2_frame : List Nat :=
  [0x32, 0x00, 0x12, 0x10, 0x00, 0x00, 0x20, 0x00, 0x00, 0xC0, 0x14, 0x8B,
   0x02, 0x06, 0x00, 0xAA, 0x00, 0x00, 0x34]

/-- A CRC-valid frame whose capacity byte says 1 while its payload region
holds two type-0 messages. -/
def c3_frame : List Nat :=
  [0x32, 0x00, 0x12, 0x10, 0x00, 0x00, 0x20, 0x00, 0x00, 0xC0, 0x14, 0x8B,
   0x01, 0x00, 0x01, 0xAA, 0x00, 0x02, 0xBB, 0x9C, 0x4C, 0x34]

/-- The packet `parse` accepts for `c3_frame`: capacity 1, two messages. -/
def c3_packet : NASAPacket :=
  { packet_start := some 0x32,
    packet_size := some 0x12,
    packet_source_address_class := some 0x10,
    packet_source_channel := some 0,
    packet_source_address := some 0,
    packet_dest_address_class := some 0x20,
    packet_dest_channel := some 0,
    packet_dest_address := some 0,
    packet_information := some true,
    packet_version := some 2,
    packet_retry_count := some 0,
    packet_type := some 1,
    packet_data_type := some 4,
    packet_number := some 0x8B,
    packet_capacity := some 1,
    packet_messages := some
      [{ packet_message := 1, packet_message_type := 0, packet_payload := [0xAA] },
       { packet_message := 2, packet_message_type := 0, packet_payload := [0xBB] }],
    packet_crc16 := some 0x9C4C,
    packet_end := some 0x34 }

/-- A CRC-valid frame of capacity 1 carrying one type-3 (structure)
message. -/
def c4_frame : List Nat :=
  [0x32, 0x00, 0x12, 0x10, 0x00, 0x00, 0x20, 0x00, 0x00, 0xC0, 0x14, 0x8B,
   0x01, 0x06, 0x00, 0xDE, 0xAD, 0x59, 0x44, 0x34]

/-- The packet `parse` accepts for `c4_frame`. -/
def c4_packet : NASAPacket :=
  { packet_start := some 0x32,
    packet_size := some 0x12,
    packet_source_address_class := some 0x10,
    packet_source_channel := some 0,
    packet_source_address := some 0,
    packet_dest_address_class := some 0x20,
    packet_dest_channel := some 0,
    packet_dest_address := some 0,
    packet_information := some true,
    packet_version := some 2,
    packet_retry_count := some 0,
    packet_type := some 1,
    packet_data_type := some 4,
    packet_number := some 0x8B,
    packet_capacity := some 1,
    packet_messages := some
      [{ packet_message := 0x0600, packet_message_type := 3, packet_payload := [0xDE, 0xAD] }],
    packet_crc16 := some 0x5944,
    packet_end := some 0x34 }

/-- The repository entry used to witness C5: forward arithmetic `r / 10`
on a VAR point (the spec's scenario S3 point). -/
def entry_c5 : RepoEntry :=
  { address := 0x4247, type := "VAR", arithmetic := some (.div .var (.num 10)) }

/-- An arithmetic expression whose evaluation fails (division by zero),
exercising the fallback path of C5. -/
def entry_c5_bad : RepoEntry :=
  { address := 0x4247, type := "VAR", arithmetic := some (.div .var (.num 0)) }

/-- ENUM entry with a mapping that lacks the key 1. -/
def entry_c6_missing : RepoEntry :=
  { address := 0x4000, type := "ENUM", enum := some [(0, "OFF")] }

/-- ENUM entry mapping both the signed (-1) and unsigned (255)
interpretation of the byte 0xFF to different labels. -/
def entry_c6_signed : RepoEntry :=
  { address := 0x4001, type := "ENUM", enum := some [(-1, "NEG"), (255, "POS")] }

/-- ENUM entry for the witness, the spec's S5-style on/off point. -/
def entry_c6_onoff : RepoEntry :=
  { address := 0x4002, type := "ENUM", enum := some [(0, "OFF"), (1, "ON")] }

/-- Repository with a single VAR point at the type-1 address 0x4247, used
by the producer claims. -/
def producer_repo : String → RepoEntry :=
  fun _ => { address := 0x4247, type := "VAR" }


/-! Lemmas about the extractor and the chunker. -/

lemma head_payload_size_pos (msg_rest : List Nat) (h : 2 < msg_rest.length) :
    1 ≤ head_payload_size msg_rest := by
  unfold head_payload_size
  split
  · omega
  · split
    · omega
    · split
      · omega
      · omega

lemma head_payload_size_le4 (msg_rest : List Nat)
    (h : head_message_type msg_rest ≤ 2) : head_payload_size msg_rest ≤ 4 := by
  unfold head_payload_size
  split
  · omega
  · split
    · omega
    · split
      · omega
      · omega

lemma head_payload_size_type3 (msg_rest : List Nat)
    (h : head_message_type msg_rest = 3) :
    head_payload_size msg_rest = msg_rest.length := by
  unfold head_payload_size
  split
  · omega
  · split
    · omega
    · split
      · omega
      · rfl

lemma extract_messages_go_fuel :
    ∀ (f₁ f₂ depth capacity : Nat) (msg_rest : List Nat) (acc : List NASAMessage),
      msg_rest.length < f₁ → msg_rest.length < f₂ →
      extract_messages_go f₁ depth capacity msg_rest acc =
        extract_messages_go f₂ depth capacity msg_rest acc := by
  intro f₁
  induction f₁ with
  | zero =>
    intro f₂ d c rest acc h1 _
    exact absurd h1 (Nat.not_lt_zero _)
  | succ f ih =>
    intro f₂ d c rest acc h1 h2
    cases f₂ with
    | zero => exact absurd h2 (Nat.not_lt_zero _)
    | succ g =>
      simp only [extract_messages_go]
      by_cases hstop : c < d ∨ rest.length ≤ 2
      · simp [hstop]
      · simp only [if_neg hstop]
        by_cases h3 : head_message_type rest = 3 ∧ c ≠ 1
        · simp [h3]
        · simp only [if_neg h3]
          by_cases hov : 255 < ((rest.drop 2).take (head_payload_size rest)).length
          · simp only [if_pos hov]
          · simp only [if_neg hov]
            have hps : 1 ≤ head_payload_size rest := by
              apply head_payload_size_pos
              omega
            apply ih
            · simp only [List.length_drop]
              omega
            · simp only [List.length_drop]
              omega

lemma extract_messages_go_length :
    ∀ (f depth capacity : Nat) (msg_rest : List Nat) (acc l : List NASAMessage),
      extract_messages_go f depth capacity msg_rest acc = .ok l →
      l.length ≤ acc.length + (capacity + 1 - depth) := by
  intro f
  induction f with
  | zero =>
    intro d c rest acc l h
    simp only [extract_messages_go] at h
    cases h
    omega
  | succ f ih =>
    intro d c rest acc l h
    simp only [extract_messages_go] at h
    by_cases hstop : c < d ∨ rest.length ≤ 2
    · rw [if_pos hstop] at h
      cases h
      omega
    · rw [if_neg hstop] at h
      by_cases h3 : head_message_type rest = 3 ∧ c ≠ 1
      · rw [if_pos h3] at h
        exact absurd h (by simp)
      · rw [if_neg h3] at h
        by_cases hov : 255 < ((rest.drop 2).take (head_payload_size rest)).length
        · rw [if_pos hov] at h
          exact absurd h (by simp)
        · rw [if_neg hov] at h
          have := ih (d + 1) c (rest.drop (2 + head_payload_size rest))
            (acc ++ [head_message rest]) l h
          simp only [List.length_append, List.length_cons, List.length_nil] at this
          omega

lemma extract_messages_go_structure :
    ∀ (f depth capacity : Nat) (msg_rest : List Nat) (acc l : List NASAMessage),
      extract_messages_go f depth capacity msg_rest acc = .ok l →
      ∀ m ∈ l, m.packet_message_type = 3 → m ∈ acc ∨ capacity = 1 := by
  intro f
  induction f with
  | zero =>
    intro d c rest acc l h m hm _
    simp only [extract_messages_go] at h
    cases h
    exact Or.inl hm
  | succ f ih =>
    intro d c rest acc l h m hm hm3
    simp only [extract_messages_go] at h
    by_cases hstop : c < d ∨ rest.length ≤ 2
    · rw [if_pos hstop] at h
      cases h
      exact Or.inl hm
    · rw [if_neg hstop] at h
      by_cases h3 : head_message_type rest = 3 ∧ c ≠ 1
      · rw [if_pos h3] at h
        exact absurd h (by simp)
      · rw [if_neg h3] at h
        by_cases hov : 255 < ((rest.drop 2).take (head_payload_size rest)).length
        · rw [if_pos hov] at h
          exact absurd h (by simp)
        · rw [if_neg hov] at h
          rcases ih (d + 1) c (rest.drop (2 + head_payload_size rest))
            (acc ++ [head_message rest]) l h m hm hm3 with hacc | hc
          · rcases List.mem_append.mp hacc with hl | hr
            · exact Or.inl hl
            · right
              have hhd : m = head_message rest := by simpa using hr
              by_cases hc1 : c = 1
              · exact hc1
              · exfalso
                apply h3
                refine ⟨?_, hc1⟩
                rw [← hm3, hhd]
                rfl
          · exact Or.inr hc

/-- Inversion of a successful `NASAPacket.parse`: the messages come from
`extract_messages` at depth 0 on the payload region, and the capacity
field is byte 12. -/
lemma parse_ok_inv (packet : List Nat) (p : NASAPacket)
    (h : NASAPacket.parse packet = .ok p) :
    ∃ msgs, extract_messages 0 (packet.getD 12 0) (pySliceDrop packet 13 3) [] = .ok msgs ∧
      p.packet_messages = some msgs ∧ p.packet_capacity = some (packet.getD 12 0) := by
  simp only [NASAPacket.parse] at h
  by_cases h14 : packet.length < 14
  · rw [if_pos h14] at h
    exact absurd h (by simp)
  · rw [if_neg h14] at h
    by_cases hsrc : isAddressClass (packet.getD 3 0) = false
    · rw [if_pos hsrc] at h
      exact absurd h (by simp)
    · rw [if_neg hsrc] at h
      by_cases hdst : isAddressClass (packet.getD 6 0) = false
      · rw [if_pos hdst] at h
        exact absurd h (by simp)
      · rw [if_neg hdst] at h
        by_cases hpt : 4 < (packet.getD 10 0 &&& 240) >>> 4
        · rw [if_pos hpt] at h
          exact absurd h (by simp)
        · rw [if_neg hpt] at h
          by_cases hdt : 7 < packet.getD 10 0 &&& 15
          · rw [if_pos hdt] at h
            exact absurd h (by simp)
          · rw [if_neg hdt] at h
            cases hx : extract_messages 0 (packet.getD 12 0) (pySliceDrop packet 13 3) [] with
            | error e =>
              simp only [hx] at h
              exact Except.noConfusion h
            | ok msgs =>
              simp only [hx] at h
              by_cases hcrc : crc_hqx (pySliceDrop packet 3 3) 0 ≠ storedCrc packet
              · rw [if_pos hcrc] at h
                exact absurd h (by simp)
              · rw [if_neg hcrc] at h
                refine ⟨msgs, rfl, ?_, ?_⟩
                · cases h
                  rfl
                · cases h
                  rfl

lemma readChunks_go_join :
    ∀ (f : Nat) (l : List String), l.length < f → (readChunks_go f l).flatten = l := by
  intro f
  induction f with
  | zero =>
    intro l h
    exact absurd h (Nat.not_lt_zero _)
  | succ f ih =>
    intro l h
    cases l with
    | nil => simp [readChunks_go]
    | cons x xs =>
      simp only [readChunks_go, List.flatten]
      rw [ih ((x :: xs).drop 10) (by simp at h ⊢; omega)]
      exact List.take_append_drop 10 (x :: xs)

lemma readChunks_go_count :
    ∀ (f : Nat) (l : List String), l.length < f →
      (readChunks_go f l).length = (l.length + 9) / 10 := by
  intro f
  induction f with
  | zero =>
    intro l h
    exact absurd h (Nat.not_lt_zero _)
  | succ f ih =>
    intro l h
    cases l with
    | nil => simp [readChunks_go]
    | cons x xs =>
      simp only [readChunks_go, List.length_cons]
      rw [ih ((x :: xs).drop 10) (by simp at h ⊢; omega)]
      simp only [List.length_drop, List.length_cons]
      omega

lemma readChunks_go_le10 :
    ∀ (f : Nat) (l c : List String), c ∈ readChunks_go f l → c.length ≤ 10 := by
  intro f
  induction f with
  | zero =>
    intro l c h
    simp [readChunks_go] at h
  | succ f ih =>
    intro l c h
    cases l with
    | nil => simp [readChunks_go] at h
    | cons x xs =>
      simp only [readChunks_go, List.mem_cons] at h
      rcases h with h | h
      · rw [h]
        simp
      · exact ih _ _ h

lemma build_chunk_messages_ok (repo : String → RepoEntry) :
    ∀ chunk : List String,
      build_chunk_messages repo chunk =
        .ok (chunk.map (fun x => { packet_message := (repo x).address,
                                   packet_message_type := 0,
                                   packet_payload := [0] })) := by
  intro chunk
  induction chunk with
  | nil => rfl
  | cons x xs ih =>
    simp only [build_chunk_messages, List.map_cons]
    rw [ih]
    rfl

lemma read_request_built_ok (repo : String → RepoEntry) :
    ∀ chunks : List (List String),
      read_request_built repo chunks =
        .ok (chunks.map (fun chunk =>
          { build_default_read_packet with
              packet_messages := some (chunk.map (fun x =>
                { packet_message := (repo x).address,
                  packet_message_type := 0,
                  packet_payload := [0] })) })) := by
  intro chunks
  induction chunks with
  | nil => rfl
  | cons c cs ih =>
    simp only [read_request_built, List.map_cons]
    rw [build_chunk_messages_ok, ih]
    rfl

/-! The claim theorems. -/

/-- C1 (code bug): for the fully-set, successfully-parsed packet
`s1_packet`, whose two contained messages are of type 1, serializing with
`NASAPacket.to_raw` succeeds but produces `s1_reserialized`, a frame in
which the messages are mangled (the write index advances by only two bytes
per message and the stale stored CRC overwrites message bytes), and
re-parsing that frame fails with a CRC mismatch instead of returning a
packet equal to `s1_packet` — the claimed round-trip does not hold. -/
theorem C1_roundtrip_serializer_bug :
    NASAPacket.parse s1_frame = .ok s1_packet ∧
    NASAPacket.to_raw s1_packet = .ok s1_reserialized ∧
    NASAPacket.parse s1_reserialized = .error .crcMismatch ∧
    s1_reserialized ≠ s1_frame :=
  ⟨rfl, rfl, rfl, by decide⟩

/-- C2 (corrected): for a frame of at least 14 bytes with valid header
enumerations whose stored CRC differs from the CRC recomputed over
`packet[3:-3]`, `parse` fails with `crcMismatch` *provided message
extraction raises no error* — extraction runs before the CRC comparison,
contrary to the claim's "message extraction is not invoked". -/
theorem C2_crc_mismatch_after_extraction (packet : List Nat) (msgs : List NASAMessage)
    (h14 : ¬ packet.length < 14)
    (hsrc : isAddressClass (packet.getD 3 0) = true)
    (hdst : isAddressClass (packet.getD 6 0) = true)
    (hpt : ¬ 4 < (packet.getD 10 0 &&& 240) >>> 4)
    (hdt : ¬ 7 < packet.getD 10 0 &&& 15)
    (hx : extract_messages 0 (packet.getD 12 0) (pySliceDrop packet 13 3) [] = .ok msgs)
    (hcrc : crc_hqx (pySliceDrop packet 3 3) 0 ≠ storedCrc packet) :
    NASAPacket.parse packet = .error .crcMismatch := by
  have hsrc' : ¬ isAddressClass (packet.getD 3 0) = false := fun hh => by
    rw [hsrc] at hh
    exact Bool.noConfusion hh
  have hdst' : ¬ isAddressClass (packet.getD 6 0) = false := fun hh => by
    rw [hdst] at hh
    exact Bool.noConfusion hh
  simp only [NASAPacket.parse]
  rw [if_neg h14, if_neg hsrc', if_neg hdst', if_neg hpt, if_neg hdt]
  simp only [hx]
  rw [if_pos hcrc]

/-- Witness for C2: the spec's scenario S2 frame (S1 with a corrupted CRC
byte) is rejected with `crcMismatch`. -/
theorem C2_witness : NASAPacket.parse s2_frame = .error .crcMismatch :=
  C2_crc_mismatch_after_extraction s2_frame
    [{ packet_message := 0x8237, packet_message_type := 1, packet_payload := [0x00, 0x20] },
     { packet_message := 0x8238, packet_message_type := 1, packet_payload := [0x00, 0x23] }]
    (by decide) (by decide) (by decide) (by decide) (by decide) rfl (by decide)

/-- Counterexample for C2: `c2_frame` has at least 14 bytes and a stored
CRC that differs from the recomputed one, yet `parse` fails with the
structure-capacity error, not `crcMismatch` — message extraction *is*
invoked (and fails first) on such a frame. -/
theorem C2_counterexample :
    14 ≤ c2_frame.length ∧
    crc_hqx (pySliceDrop c2_frame 3 3) 0 ≠ storedCrc c2_frame ∧
    NASAPacket.parse c2_frame = .error .structureCapacity :=
  ⟨by decide, by decide, rfl⟩

/-- C3 (corrected): the extractor performs no trailing-bytes check and the
declared capacity need not equal the number of extracted messages; what
does hold is that a packet accepted by `parse` carries at most
`capacity + 1` messages (the extractor appends at depths `0..capacity` and
also stops early when at most two bytes remain). -/
theorem C3_capacity_bound (packet : List Nat) (p : NASAPacket)
    (msgs : List NASAMessage) (cap : Nat)
    (h : NASAPacket.parse packet = .ok p)
    (hm : p.packet_messages = some msgs)
    (hc : p.packet_capacity = some cap) :
    msgs.length ≤ cap + 1 := by
  obtain ⟨msgs₀, hx, hm₀, hc₀⟩ := parse_ok_inv packet p h
  rw [hm₀] at hm
  injection hm with hm
  rw [hc₀] at hc
  injection hc with hc
  simp only [extract_messages] at hx
  have hlen := extract_messages_go_length _ 0 _ _ [] msgs₀ hx
  rw [hm, hc] at hlen
  simpa using hlen

/-- Witness for C3: the bound applied to the accepted frame `c3_frame`. -/
theorem C3_witness :
    ([{ packet_message := 1, packet_message_type := 0, packet_payload := [0xAA] },
      { packet_message := 2, packet_message_type := 0, packet_payload := [0xBB] }] :
        List NASAMessage).length ≤ 1 + 1 :=
  C3_capacity_bound c3_frame c3_packet _ 1 rfl rfl rfl

/-- Counterexample for C3: `parse` accepts `c3_frame` although its declared
capacity 1 differs from its two extracted messages (the second message is
appended at depth 1 = capacity, and no trailing-bytes check exists). -/
theorem C3_counterexample :
    NASAPacket.parse c3_frame = .ok c3_packet ∧
    c3_packet.packet_capacity = some 1 ∧
    c3_packet.packet_messages = some
      [{ packet_message := 1, packet_message_type := 0, packet_payload := [0xAA] },
       { packet_message := 2, packet_message_type := 0, packet_payload := [0xBB] }] :=
  ⟨rfl, rfl, rfl⟩

/-- C4 (confirmed): a type-3 message reached by either extractor
(`NASAPacket._extract_messages` or `MessageProcessor.extract_messages`) in
a packet of capacity other than 1 aborts extraction with the
structure-capacity error, and consequently every packet `parse` accepts
that contains a type-3 message has capacity 1. -/
theorem C4_structure_capacity_one (depth capacity : Nat) (msg_rest : List Nat)
    (acc : List NASAMessage) (packet : List Nat) (p : NASAPacket)
    (msgs : List NASAMessage) (m : NASAMessage) :
    (depth ≤ capacity → 2 < msg_rest.length → head_message_type msg_rest = 3 →
      capacity ≠ 1 →
      extract_messages depth capacity msg_rest acc = .error .structureCapacity) ∧
    (depth ≤ capacity → 1 < msg_rest.length → head_message_type msg_rest = 3 →
      capacity ≠ 1 →
      mp_extract_messages depth capacity msg_rest acc = .error .messageWarning) ∧
    (NASAPacket.parse packet = .ok p → p.packet_messages = some msgs →
      m ∈ msgs → m.packet_message_type = 3 → p.packet_capacity = some 1) := by
  refine ⟨?_, ?_, ?_⟩
  · intro h1 h2 h3 h4
    simp only [extract_messages, extract_messages_go]
    rw [if_neg (by omega)]
    rw [if_pos ⟨h3, h4⟩]
  · intro h1 h2 h3 h4
    simp only [mp_extract_messages, mp_extract_messages_go]
    rw [if_neg (by omega)]
    rw [if_neg (by omega)]
    rw [if_pos ⟨h3, h4⟩]
  · intro hp hm hmem hm3
    obtain ⟨msgs₀, hx, hm₀, hc₀⟩ := parse_ok_inv packet p hp
    rw [hm₀] at hm
    injection hm with hm
    rw [← hm] at hmem
    simp only [extract_messages] at hx
    rcases extract_messages_go_structure _ 0 _ _ [] msgs₀ hx m hmem hm3 with hin | hcap
    · simp at hin
    · rw [hc₀, hcap]

/-- Witness for C4: extraction aborts on a structure message at capacity 2,
and the accepted structure packet `c4_frame` indeed has capacity 1. -/
theorem C4_witness :
    extract_messages 0 2 [0x06, 0x00, 0xAA] [] = .error .structureCapacity ∧
    mp_extract_messages 0 2 [0x06, 0x00, 0xAA] [] = .error .messageWarning ∧
    c4_packet.packet_capacity = some 1 :=
  ⟨(C4_structure_capacity_one 0 2 [0x06, 0x00, 0xAA] [] c4_frame c4_packet
      [{ packet_message := 0x0600, packet_message_type := 3, packet_payload := [0xDE, 0xAD] }]
      { packet_message := 0x0600, packet_message_type := 3, packet_payload := [0xDE, 0xAD] }).1
      (by decide) (by decide) (by decide) (by decide),
   (C4_structure_capacity_one 0 2 [0x06, 0x00, 0xAA] [] c4_frame c4_packet
      [{ packet_message := 0x0600, packet_message_type := 3, packet_payload := [0xDE, 0xAD] }]
      { packet_message := 0x0600, packet_message_type := 3, packet_payload := [0xDE, 0xAD] }).2.1
      (by decide) (by decide) (by decide) (by decide),
   (C4_structure_capacity_one 0 2 [0x06, 0x00, 0xAA] [] c4_frame c4_packet
      [{ packet_message := 0x0600, packet_message_type := 3, packet_payload := [0xDE, 0xAD] }]
      { packet_message := 0x0600, packet_message_type := 3, packet_payload := [0xDE, 0xAD] }).2.2
      rfl rfl (by simp) rfl⟩

/-- C5 (confirmed): for a non-ENUM entry with a forward arithmetic
expression, `determine_value` returns the evaluated expression rounded to
3 decimals, and falls back to the raw big-endian signed value (also
rounded to 3 decimals) when the evaluation fails. -/
theorem C5_arithmetic_rounding (entry : RepoEntry) (raw : List Nat) (f : Arith)
    (hty : ¬ entry.type = "ENUM") (ha : entry.arithmetic = some f) :
    (∀ v : ℚ, evalArith f ((intFromBytesSigned raw : Int) : ℚ) = some v →
      determine_value entry raw = .ok (.num (pyRound3 v))) ∧
    (evalArith f ((intFromBytesSigned raw : Int) : ℚ) = none →
      determine_value entry raw = .ok (.num (pyRound3 ((intFromBytesSigned raw : Int) : ℚ)))) := by
  constructor
  · intro v hv
    simp only [determine_value, ha, hv]
    rw [if_neg hty]
  · intro hv
    simp only [determine_value, ha, hv]
    rw [if_neg hty]

/-- Witness for C5: the S3 payload `[0x01, 0x2C]` (raw 300) under `r / 10`
yields `round(30, 3)`, and the division-by-zero expression falls back to
`round(300, 3)`. -/
theorem C5_witness :
    determine_value entry_c5 [0x01, 0x2C] = .ok (.num (pyRound3 30)) ∧
    determine_value entry_c5_bad [0x01, 0x2C] = .ok (.num (pyRound3 300)) := by
  constructor
  · exact (C5_arithmetic_rounding entry_c5 [0x01, 0x2C] (.div .var (.num 10))
      (by decide) rfl).1 30
      (by norm_num [evalArith, intFromBytesSigned, intFromBytesUnsigned])
  · have h := (C5_arithmetic_rounding entry_c5_bad [0x01, 0x2C] (.div .var (.num 0))
      (by decide) rfl).2
      (by norm_num [evalArith, intFromBytesSigned, intFromBytesUnsigned])
    rw [h]
    norm_num [intFromBytesSigned, intFromBytesUnsigned]

/-- C6 (corrected): for an ENUM entry that carries a mapping,
`determine_value` looks the payload up decoded as a big-endian *unsigned*
integer, returns the mapped label when present, and raises `KeyError`
when absent — it does not produce the synthetic "Unknown enum value"
string (that string arises only for ENUM entries without a mapping). -/
theorem C6_enum_lookup (entry : RepoEntry) (raw : List Nat)
    (m : List (Int × String))
    (hty : entry.type = "ENUM") (hm : entry.enum = some m) :
    (∀ lab, dictLookup m (intFromBytesUnsigned raw : Int) = some lab →
      determine_value entry raw = .ok (.str lab)) ∧
    (dictLookup m (intFromBytesUnsigned raw : Int) = none →
      determine_value entry raw = .error .keyError) := by
  constructor
  · intro lab hlab
    simp only [determine_value, hm, if_pos hty, hlab]
  · intro hnone
    simp only [determine_value, hm, if_pos hty, hnone]

/-- Witness for C6 (amended behaviour): the byte 0x01 of an on/off ENUM
point maps to its label. -/
theorem C6_witness : determine_value entry_c6_onoff [0x01] = .ok (.str "ON") :=
  (C6_enum_lookup entry_c6_onoff [0x01] [(0, "OFF"), (1, "ON")] rfl rfl).1 "ON" rfl

/-- Counterexample for C6: a key absent from the mapping raises `KeyError`
instead of yielding the synthetic string, and the payload `[0xFF]` is
looked up as unsigned 255, not as the signed value -1 the claim
prescribes. -/
theorem C6_counterexample :
    determine_value entry_c6_missing [0x01] = .error .keyError ∧
    determine_value entry_c6_signed [0xFF] = .ok (.str "POS") :=
  ⟨rfl, rfl⟩

/-- C10 (confirmed): the extractor's recursion terminates on every input:
it returns immediately once the depth counter exceeds the capacity or at
most two bytes remain; a head message of type 0-2 consumes `2 + (1|2|4)`
(at least 3) bytes, so the recursive call's rest is strictly shorter; and
a head message of type 3 (in a capacity-1 packet, payload within the
255-byte limit) consumes the whole rest, so the recursive call sees the
empty list. -/
theorem C10_extraction_terminates (depth capacity : Nat) (msg_rest : List Nat)
    (acc : List NASAMessage) :
    ((capacity < depth ∨ msg_rest.length ≤ 2) →
      extract_messages depth capacity msg_rest acc = .ok acc) ∧
    (depth ≤ capacity → 2 < msg_rest.length → head_message_type msg_rest ≤ 2 →
      3 ≤ 2 + head_payload_size msg_rest ∧
      (msg_rest.drop (2 + head_payload_size msg_rest)).length < msg_rest.length ∧
      extract_messages depth capacity msg_rest acc =
        extract_messages (depth + 1) capacity
          (msg_rest.drop (2 + head_payload_size msg_rest))
          (acc ++ [head_message msg_rest])) ∧
    (depth ≤ capacity → 2 < msg_rest.length → head_message_type msg_rest = 3 →
      capacity = 1 → msg_rest.length ≤ 257 →
      msg_rest.drop (2 + head_payload_size msg_rest) = [] ∧
      extract_messages depth capacity msg_rest acc =
        extract_messages (depth + 1) capacity [] (acc ++ [head_message msg_rest])) := by
  refine ⟨?_, ?_, ?_⟩
  · intro h
    simp only [extract_messages, extract_messages_go]
    rw [if_pos h]
  · intro h1 h2 h3
    have hps1 : 1 ≤ head_payload_size msg_rest := head_payload_size_pos _ h2
    have hps4 : head_payload_size msg_rest ≤ 4 := head_payload_size_le4 _ h3
    refine ⟨by omega, ?_, ?_⟩
    · simp only [List.length_drop]
      omega
    · have step1 : extract_messages depth capacity msg_rest acc =
          extract_messages_go msg_rest.length (depth + 1) capacity
            (msg_rest.drop (2 + head_payload_size msg_rest))
            (acc ++ [head_message msg_rest]) := by
        simp only [extract_messages, extract_messages_go]
        rw [if_neg (by omega)]
        rw [if_neg (by intro hh; omega)]
        rw [if_neg (by simp only [List.length_take, List.length_drop]; omega)]
      rw [step1]
      simp only [extract_messages]
      apply extract_messages_go_fuel
      · simp only [List.length_drop]
        omega
      · simp only [List.length_drop]
        omega
  · intro h1 h2 h3 hc h257
    have hps : head_payload_size msg_rest = msg_rest.length :=
      head_payload_size_type3 _ h3
    have hdrop : msg_rest.drop (2 + head_payload_size msg_rest) = [] := by
      apply List.drop_eq_nil_of_le
      omega
    refine ⟨hdrop, ?_⟩
    have step1 : extract_messages depth capacity msg_rest acc =
        extract_messages_go msg_rest.length (depth + 1) capacity
          (msg_rest.drop (2 + head_payload_size msg_rest))
          (acc ++ [head_message msg_rest]) := by
      simp only [extract_messages, extract_messages_go]
      rw [if_neg (by omega)]
      rw [if_neg (by intro hh; exact hh.2 hc)]
      rw [if_neg (by simp only [List.length_take, List.length_drop]; omega)]
    rw [step1, hdrop]
    simp only [extract_messages]
    apply extract_messages_go_fuel
    · simp only [List.length_nil]
      omega
    · simp only [List.length_nil, List.length_cons]
      omega

/-- Witness for C10: the three behaviours at concrete inputs — the stop
case, a type-0 step consuming 3 bytes, and a type-3 step consuming the
whole rest. -/
theorem C10_witness :
    extract_messages 5 2 [0x00, 0x01, 0xAA] [] = .ok [] ∧
    (3 ≤ 2 + head_payload_size [0x00, 0x01, 0xAA, 0x09] ∧
     (([0x00, 0x01, 0xAA, 0x09] : List Nat).drop
        (2 + head_payload_size [0x00, 0x01, 0xAA, 0x09])).length <
       ([0x00, 0x01, 0xAA, 0x09] : List Nat).length ∧
     extract_messages 0 2 [0x00, 0x01, 0xAA, 0x09] [] =
       extract_messages 1 2
         (([0x00, 0x01, 0xAA, 0x09] : List Nat).drop
           (2 + head_payload_size [0x00, 0x01, 0xAA, 0x09]))
         ([] ++ [head_message [0x00, 0x01, 0xAA, 0x09]])) ∧
    (([0x06, 0x00, 0xAA] : List Nat).drop
        (2 + head_payload_size [0x06, 0x00, 0xAA]) = [] ∧
     extract_messages 0 1 [0x06, 0x00, 0xAA] [] =
       extract_messages 1 1 [] ([] ++ [head_message [0x06, 0x00, 0xAA]])) :=
  ⟨(C10_extraction_terminates 5 2 [0x00, 0x01, 0xAA] []).1 (Or.inl (by decide)),
   (C10_extraction_terminates 0 2 [0x00, 0x01, 0xAA, 0x09] []).2.1
     (by decide) (by decide) (by decide),
   (C10_extraction_terminates 0 1 [0x06, 0x00, 0xAA] []).2.2
     (by decide) (by decide) (by decide) rfl (by decide)⟩

/-- Structural facts about the packets `read_request` builds (independent
of the serialization failure): one packet per chunk of at most 10 names,
in input order, with source class JIGTester (0x80), destination class
BroadcastSetLayer (0xB2), packet type Normal (1), data type Read (1) — and
`packet_capacity` (like `packet_size` and `packet_crc16`) left unset. -/
theorem read_request_built_chunking (repo : String → RepoEntry)
    (names : List String) :
    ∃ pkts, read_request_built repo (readChunks names) = .ok pkts ∧
      pkts.length = (names.length + 9) / 10 ∧
      (∀ p ∈ pkts,
        p.packet_source_address_class = some 0x80 ∧
        p.packet_dest_address_class = some 0xB2 ∧
        p.packet_type = some 1 ∧
        p.packet_data_type = some 1 ∧
        p.packet_capacity = none ∧
        p.packet_size = none ∧
        ∃ ms, p.packet_messages = some ms ∧ ms.length ≤ 10) ∧
      (pkts.map (fun p => ((p.packet_messages.getD []).map
          (fun m => m.packet_message)))).flatten =
        names.map (fun x => (repo x).address) := by
  refine ⟨_, read_request_built_ok repo (readChunks names), ?_, ?_, ?_⟩
  · rw [List.length_map]
    exact readChunks_go_count _ names (by omega)
  · intro p hp
    rw [List.mem_map] at hp
    obtain ⟨chunk, hchunk, hpeq⟩ := hp
    subst hpeq
    refine ⟨rfl, rfl, rfl, rfl, rfl, rfl, _, rfl, ?_⟩
    rw [List.length_map]
    exact readChunks_go_le10 _ names chunk hchunk
  · rw [List.map_map]
    have hmap : ∀ chunk : List String,
        ((fun p : NASAPacket => ((p.packet_messages.getD []).map
            (fun m => m.packet_message))) ∘
          (fun chunk : List String =>
            { build_default_read_packet with
                packet_messages := some (chunk.map (fun x =>
                  { packet_message := (repo x).address,
                    packet_message_type := 0,
                    packet_payload := [0] })) })) chunk =
          chunk.map (fun x => (repo x).address) := by
      intro chunk
      simp [List.map_map]
    rw [List.map_congr_left (fun c _ => hmap c)]
    rw [← List.map_flatten]
    simp only [readChunks]
    rw [readChunks_go_join _ names (by omega)]

/-- C7 (code bug): `read_request` on a non-empty name list never sends a
packet — serializing the first built packet raises (its `packet_size` was
never set, `TypeError`); moreover even the built packet leaves
`packet_capacity` unset instead of the chunk's length claimed. -/
theorem C7_read_request_bug :
    read_request producer_repo ["P1"] = .error .typeError ∧
    read_request_built producer_repo (readChunks ["P1"]) =
      .ok [{ build_default_read_packet with
              packet_messages := some
                [{ packet_message := 0x4247, packet_message_type := 0,
                   packet_payload := [0] }] }] ∧
    build_default_read_packet.packet_capacity = none ∧
    build_default_read_packet.packet_size = none :=
  ⟨rfl, rfl, rfl, rfl⟩

/-- C8 (code bug): `write_request` never sends — the `to_raw()` call on
the built packet raises (`packet_size` unset, `TypeError`) before any
write, sleep or follow-up read; and the encoded payload disregards the
point's message type: the built message for the type-1 point 0x4247 keeps
the `NASAMessage` default type 0 and carries a 1-byte payload instead of
the 2-byte encoding the claim requires. -/
theorem C8_write_request_bug :
    write_request producer_repo "P1" "1" = .error .typeError ∧
    build_message (producer_repo "P1") (.int 1) =
      .ok { packet_message := 0x4247, packet_message_type := 0,
            packet_payload := [1] } ∧
    (0x4247 &&& 1536) >>> 9 = 1 ∧
    decode_value (producer_repo "P1") "1" = .ok (.int 1) :=
  ⟨rfl, rfl, by decide, rfl⟩

/-- C9 (corrected): when the clean-known-devices flag is set, the connect
step publishes exactly one retained message to
`topicPrefix-without-slashes + "/known/devices"`; its payload is the
one-space string `" "` (not the empty string), which the known-devices
reader parses back to the empty device list; without the flag nothing is
published. -/
theorem C9_connect_clear (flag : Bool) (topicPref : String) :
    (flag = true →
      mqtt_connect flag topicPref =
        [{ topic := (pyRemoveChar topicPref '/') ++ "/" ++ known_devices_topic,
           payload := " ", retain := true }] ∧
      ∀ pub ∈ mqtt_connect flag topicPref, parseKnownDevices pub.payload = []) ∧
    (flag = false → mqtt_connect flag topicPref = []) := by
  constructor
  · intro h
    subst h
    refine ⟨rfl, ?_⟩
    intro pub hpub
    simp only [mqtt_connect, if_pos, List.mem_singleton] at hpub
    rw [hpub]
    rfl
  · intro h
    subst h
    rfl

/-- Witness for C9: the connect effect at topic prefix "ehs" with and
without the flag. -/
theorem C9_witness :
    mqtt_connect true "ehs" =
      [{ topic := (pyRemoveChar "ehs" '/') ++ "/" ++ known_devices_topic,
         payload := " ", retain := true }] ∧
    mqtt_connect false "ehs" = [] :=
  ⟨((C9_connect_clear true "ehs").1 rfl).1, (C9_connect_clear false "ehs").2 rfl⟩

/-- Counterexample for C9: the published payload is `" "`, not the empty
message the claim states, and a topic prefix containing a slash is
flattened (`"my/home"` publishes to `"myhome/known/devices"`, not to
`"my/home/known/devices"`). -/
theorem C9_counterexample :
    mqtt_connect true "my/home" =
      [{ topic := "myhome/known/devices", payload := " ", retain := true }] ∧
    (" " : String) ≠ "" ∧
    ("myhome/known/devices" : String) ≠ "my/home/known/devices" :=
  ⟨rfl, by decide, by decide⟩

end EHS
